import Mathlib

/-!
Verification of the command-construction and test-discovery core of the
kralicky/vscode-bazel extension.

The embedding follows the TypeScript sources:
  * src/workspace-tree/bazel_target_tree_item.ts   (parseGtestList, getChildren)
  * src/workspace-tree/bazel_gtest_tree_item.ts    (BazelGTestTreeItem payload)
  * src/extension/bazel_wrapper_commands.ts        (command wrappers)

Strings are modelled at the character-list level so that every definition
is executable and kernel-reducible: JavaScript String.prototype.split on a
single-character separator is `splitOnChar`, String.prototype.trim is
`trimChars` (both ends, whitespace), String.prototype.startsWith("  ") is
`startsWithTwoSpaces`.
-/

/-- JavaScript `s.split(sep)` for a one-character separator: splits on every
occurrence; the empty string yields `[""]`. -/
def splitOnChar (sep : Char) : List Char → List (List Char)
  | [] => [[]]
  | c :: cs =>
    match splitOnChar sep cs with
    | [] => [[]]
    | r :: rs => if c = sep then [] :: r :: rs else (c :: r) :: rs

/-- JavaScript `s.trim()`: strip whitespace from both ends. -/
def trimChars (l : List Char) : List Char :=
  ((l.dropWhile Char.isWhitespace).reverse.dropWhile Char.isWhitespace).reverse

/-- JavaScript `line.startsWith("  ")`. -/
def startsWithTwoSpaces : List Char → Bool
  | ' ' :: ' ' :: _ => true
  | _ => false

/-- The payload a `BazelGTestTreeItem` is constructed with in
bazel_gtest_tree_item.ts: the qualified test name and the optional comment
(the resources / workspaceInfo / target constructor arguments are shared
context, not data produced by the parser). -/
structure GTestDescriptor where
  testName : String
  comment : Option String
deriving DecidableEq, Repr

/-- The case-line branch of `parseGtestList` (bazel_target_tree_item.ts,
lines 132-153): `split = line.split("#")`; when `split.length == 2` the
descriptor is `(currentTestGroup + split[0].trim(), split[1].trim())`,
otherwise `(currentTestGroup + split[0].trim())` with no comment. -/
def caseDescriptor (currentTestGroup : String) (line : List Char) : GTestDescriptor :=
  let split := splitOnChar '#' line
  if split.length == 2 then
    { testName := currentTestGroup ++ String.mk (trimChars split.headI)
      comment := some (String.mk (trimChars (split.getD 1 []))) }
  else
    { testName := currentTestGroup ++ String.mk (trimChars split.headI)
      comment := none }

/-- One iteration of the `forEach` in `parseGtestList`: a line starting with
two spaces appends a case descriptor; any other line becomes the new current
test group (trimmed). The accumulator is `(currentTestGroup, allTests)`. -/
def parseGtestStep (acc : String × List GTestDescriptor) (line : List Char) :
    String × List GTestDescriptor :=
  if startsWithTwoSpaces line then
    (acc.1, acc.2 ++ [caseDescriptor acc.1 line])
  else
    (String.mk (trimChars line), acc.2)

/-- Source method `BazelTargetTreeItem.parseGtestList` (bazel_target_tree_item.ts, lines
128-159): split the input on newlines and fold `parseGtestStep` over the
lines, starting from an empty current group and empty result list. -/
def parseGtestList (input : String) : List GTestDescriptor :=
  ((splitOnChar '\n' input.data).foldl parseGtestStep ("", [])).2

/-- Reference case-line rule transcribed from the claim wording: the
qualified name is the current group concatenated with the trimmed text
before the FIRST '#', and the comment is the trimmed text after the first
'#' whenever a '#' is present (no comment otherwise). -/
def specCaseDescriptor (currentGroup : String) (line : List Char) : GTestDescriptor :=
  let split := splitOnChar '#' line
  { testName := currentGroup ++ String.mk (trimChars split.headI)
    comment :=
      if 2 ≤ split.length then
        some (String.mk (trimChars (List.intercalate ['#'] split.tail)))
      else none }

/-- Reference fold step for the claim's algorithm. -/
def specParseGtestStep (acc : String × List GTestDescriptor) (line : List Char) :
    String × List GTestDescriptor :=
  if startsWithTwoSpaces line then
    (acc.1, acc.2 ++ [specCaseDescriptor acc.1 line])
  else
    (String.mk (trimChars line), acc.2)

/-- Reference algorithm of claim C1, transcribed from the spec's words. -/
def specParseGtestList (input : String) : List GTestDescriptor :=
  ((splitOnChar '\n' input.data).foldl specParseGtestStep ("", [])).2

/-- Amended case-line rule: a comment is produced only when the '#'-split
has exactly two parts (exactly one '#'); its text is still the trimmed text
after the first '#'. -/
def amendedCaseDescriptor (currentGroup : String) (line : List Char) : GTestDescriptor :=
  let split := splitOnChar '#' line
  { testName := currentGroup ++ String.mk (trimChars split.headI)
    comment :=
      if split.length == 2 then
        some (String.mk (trimChars (List.intercalate ['#'] split.tail)))
      else none }

/-- Amended fold step. -/
def amendedParseGtestStep (acc : String × List GTestDescriptor) (line : List Char) :
    String × List GTestDescriptor :=
  if startsWithTwoSpaces line then
    (acc.1, acc.2 ++ [amendedCaseDescriptor acc.1 line])
  else
    (String.mk (trimChars line), acc.2)

/-- Amended reference algorithm for claim C1. -/
def amendedSpecParseGtestList (input : String) : List GTestDescriptor :=
  ((splitOnChar '\n' input.data).foldl amendedParseGtestStep ("", [])).2

example : parseGtestList "GroupA.\n  Case1\n  Case2  # comment text\nGroupB.\n  Case3" =
    [⟨"GroupA.Case1", none⟩, ⟨"GroupA.Case2", some "comment text"⟩,
     ⟨"GroupB.Case3", none⟩] := by decide

example : parseGtestList "" = [] := by decide

example : parseGtestList "  c#a#b" = [⟨"c", none⟩] := by decide

example : specParseGtestList "  c#a#b" = [⟨"c", some "a#b"⟩] := by decide

/-!
Command layer (src/extension/bazel_wrapper_commands.ts).

`BazelWorkspaceInfo`, `IBazelCommandOptions`, `createBazelTask`, the quick
pick, the cquery service and the task/debug subsystems are declared in other
files of the repository (src/bazel, vscode); they enter here only at their
interface boundary.
-/

/-- Modelled from the spec: `BazelWorkspaceInfo` (declared in src/bazel, not
included in the sources) carries the workspace root used as working
directory (`bazelWorkspacePath`) and the host workspace folder handle
(`workspaceFolder`) passed to the debugger launch (spec section 3 and 6). -/
structure BazelWorkspaceInfo where
  bazelWorkspacePath : String
  workspaceFolder : String
deriving DecidableEq, Repr

/-- Interface `IBazelCommandOptions` (declared in src/bazel): the options bundle every
adapter's `getBazelCommandOptions` returns — flag strings, target label
strings, workspace info (spec section 3). -/
structure IBazelCommandOptions where
  options : List String
  targets : List String
  workspaceInfo : BazelWorkspaceInfo
deriving DecidableEq, Repr

/-- Modelled from the spec: `createBazelTask` (declared in src/bazel, not
included in the sources) maps a verb and an options bundle to the single
externally-executed task (spec section 4.3: deterministic, no interpretation
of the options). It is modelled as the pair of its arguments. -/
structure BazelTask where
  command : String
  commandOptions : IBazelCommandOptions
deriving DecidableEq, Repr

/-- See `BazelTask`. -/
def createBazelTask (command : String) (options : IBazelCommandOptions) : BazelTask :=
  ⟨command, options⟩

/-- Outcome of the quick pick shown when a command is invoked from the
palette without an adapter: the user cancels, or picks an adapter whose
`getBazelCommandOptions` returns the given bundle. -/
inductive QuickPickOutcome
  | cancelled
  | picked (adapterOptions : IBazelCommandOptions)
deriving DecidableEq, Repr

/-- The `mode: "test" | "coverage"` parameter of `bazelTestTarget`. -/
inductive TestMode
  | test
  | coverage
deriving DecidableEq, Repr

/-- The verb string a `TestMode` denotes. -/
def TestMode.toVerb : TestMode → String
  | .test => "test"
  | .coverage => "coverage"

/-- Final state of the `commandOptions` object in `bazelTestTarget`
(bazel_wrapper_commands.ts, lines 221-225): the source reassigns its
`options` field to the `--test_arg=`-prefixed copy and then pushes the
`extraArgs` onto that array — an in-place mutation of the object the
adapter returned.  The same object is what `createBazelTask` receives. -/
def bazelTestTargetOptions (commandOptions : IBazelCommandOptions)
    (extraArgs : List String) : IBazelCommandOptions :=
  { commandOptions with
    options := commandOptions.options.map (fun opt => "--test_arg=" ++ opt) ++ extraArgs }

/-- The adapter-present branch of `bazelTestTarget` (lines 221-228): mutate
the options as above and submit a task for the given mode. -/
def bazelTestTargetDispatch (commandOptions : IBazelCommandOptions) (mode : TestMode)
    (extraArgs : List String) : BazelTask :=
  createBazelTask mode.toVerb (bazelTestTargetOptions commandOptions extraArgs)

/-- Source function `bazelTestTarget` (lines 199-229), as the task it submits (if any).
With no adapter, the quick pick runs; on cancellation nothing is submitted;
on a pick, line 217 re-invokes `bazelTestTarget(quickPick, mode)` — with an
adapter now present and NO extraArgs — which reduces to the dispatch branch
with an empty extra-flag list. -/
def bazelTestTarget (adapter : Option IBazelCommandOptions) (mode : TestMode)
    (extraArgs : List String) (pick : QuickPickOutcome) : Option BazelTask :=
  match adapter with
  | some commandOptions => some (bazelTestTargetDispatch commandOptions mode extraArgs)
  | none =>
    match pick with
    | .cancelled => none
    | .picked a => some (bazelTestTargetDispatch a mode [])

/-- The fresh options bundle `allCommandOptions` built identically by
`buildPackage` (lines 152-157) and `testPackage` (lines 360-365): same
options array, every target with the suffix appended, same workspace info;
the incoming `commandOptions` is only read. -/
def packageAllCommandOptions (suffix : String)
    (commandOptions : IBazelCommandOptions) : IBazelCommandOptions :=
  { options := commandOptions.options
    targets := commandOptions.targets.map (fun s => s ++ suffix)
    workspaceInfo := commandOptions.workspaceInfo }

/-- Post-state of the adapter's `commandOptions` object after the body of
`buildPackage` / `testPackage`: those bodies never assign to it (they only
build the fresh literal `packageAllCommandOptions`), so it is returned
unchanged. -/
def packagePostState (commandOptions : IBazelCommandOptions) : IBazelCommandOptions :=
  commandOptions

/-- Source function `buildPackage` (lines 131-161), as the task it submits (if any). -/
def buildPackage (suffix : String) (adapter : Option IBazelCommandOptions)
    (pick : QuickPickOutcome) : Option BazelTask :=
  match adapter with
  | some commandOptions => some (createBazelTask "build" (packageAllCommandOptions suffix commandOptions))
  | none =>
    match pick with
    | .cancelled => none
    | .picked a => some (createBazelTask "build" (packageAllCommandOptions suffix a))

/-- Source function `testPackage` (lines 338-369), as the task it submits (if any). -/
def testPackage (suffix : String) (adapter : Option IBazelCommandOptions)
    (mode : TestMode) (pick : QuickPickOutcome) : Option BazelTask :=
  match adapter with
  | some commandOptions => some (createBazelTask mode.toVerb (packageAllCommandOptions suffix commandOptions))
  | none =>
    match pick with
    | .cancelled => none
    | .picked a => some (createBazelTask mode.toVerb (packageAllCommandOptions suffix a))

/-- The `vscode.DebugConfiguration` record built by `bazelDebugTestTarget`
(lines 284-303), restricted to the fields this layer computes; the source
map is an assoc list whose head is the fixed `/proc/self/cwd` mapping and
whose tail is the user-configured extra mappings (object spread: later
entries take precedence on key collision). -/
structure DebugConfiguration where
  name : String
  program : String
  args : List String
  cwd : String
  sourceMap : List (String × String)
  workspaceFolder : String
deriving DecidableEq, Repr

/-- Observable effects of one `bazelDebugTestTarget` run: the error thrown
(if any), the build task submitted to `vscode.tasks.executeTask` (if any),
the `queryOutputs(target, flags)` call made (if any) and the debug launch
started (if any). -/
structure DebugFlowTrace where
  thrownError : Option String
  submittedTask : Option BazelTask
  queryCall : Option (String × List String)
  launch : Option DebugConfiguration
deriving DecidableEq, Repr

/-- The adapter-present body of `bazelDebugTestTarget` (lines 253-312).
Environment inputs stand for the external collaborators: `exitCode` is the
`event.exitCode` of the completion event correlated to the submitted task
(`none` models `undefined`), `outputs` is what `queryOutputs` would return,
`userMappings` is the `bazel.extraDebugSourceMappings` configuration.

Control flow of the source: throw when `targets.length != 1` (before any
task is created); otherwise submit a build task whose options are the
compilation-mode flag pair followed by `extraArgs` (the command options are
deliberately omitted, line 262); on a non-zero (or undefined) exit code
return without further effects; otherwise query the outputs and start a
debug session whose `program` is `outputs[0]` and whose `args` are the
adapter's command options. -/
def bazelDebugTestTargetBody (commandOptions : IBazelCommandOptions)
    (extraArgs : List String) (exitCode : Option Int) (outputs : List String)
    (userMappings : List (String × String)) : DebugFlowTrace :=
  if commandOptions.targets.length ≠ 1 then
    { thrownError := some "bug: invalid number of targets passed to bazelDebugTestTarget"
      submittedTask := none, queryCall := none, launch := none }
  else
    let target := commandOptions.targets.headI
    let task := createBazelTask "build"
      { options := ["--compilation_mode", "dbg"] ++ extraArgs
        targets := commandOptions.targets
        workspaceInfo := commandOptions.workspaceInfo }
    let cwd := commandOptions.workspaceInfo.bazelWorkspacePath
    if exitCode ≠ some 0 then
      { thrownError := none, submittedTask := some task, queryCall := none, launch := none }
    else
      { thrownError := none
        submittedTask := some task
        queryCall := some (target, ["--compilation_mode", "dbg"])
        launch := some
          { name := "Debug Test Target: " ++ target
            program := outputs.headI
            args := commandOptions.options
            cwd := cwd
            sourceMap := ("/proc/self/cwd", "$\x7bworkspaceFolder\x7d") :: userMappings
            workspaceFolder := commandOptions.workspaceInfo.workspaceFolder } }

/-- Source function `bazelDebugTestTarget` (lines 231-313), as its effect trace.  With no
adapter the quick pick runs; cancellation produces no effects; a pick
re-invokes `bazelDebugTestTarget(quickPick)` (line 248) — adapter present,
NO extraArgs — which reduces to the body with an empty extra-flag list. -/
def bazelDebugTestTarget (adapter : Option IBazelCommandOptions)
    (extraArgs : List String) (pick : QuickPickOutcome) (exitCode : Option Int)
    (outputs : List String) (userMappings : List (String × String)) : DebugFlowTrace :=
  match adapter with
  | some commandOptions =>
    bazelDebugTestTargetBody commandOptions extraArgs exitCode outputs userMappings
  | none =>
    match pick with
    | .cancelled => { thrownError := none, submittedTask := none, queryCall := none, launch := none }
    | .picked a => bazelDebugTestTargetBody a [] exitCode outputs userMappings

/-- Result of running the built test binary with `--gtest_list_tests`
(line 70): its stdout, or a failure (caught at line 75). -/
inductive ExecResult
  | ok (stdout : String)
  | failed
deriving DecidableEq, Repr

/-- Source method `BazelTargetTreeItem.getChildren` (bazel_target_tree_item.ts, lines
60-79), parametrised by the outputs the cquery returns and the result of
executing the binary.  When the query returns a number of outputs different
from one, the empty list is returned at line 66.  The guard at line 68
tests the un-awaited promise `fileExists(outputs[0])`, which is always
truthy, so the listing branch is always taken; an execution failure is
caught and yields the empty list, a successful listing is parsed with
`parseGtestList`. -/
def getChildren (outputs : List String) (exec : ExecResult) : List GTestDescriptor :=
  if outputs.length ≠ 1 then []
  else
    match exec with
    | .failed => []
    | .ok stdout => parseGtestList stdout

/-! ### Parser lemmas -/

theorem splitOnChar_ne_nil (sep : Char) (l : List Char) : splitOnChar sep l ≠ [] := by
  cases l with
  | nil => simp [splitOnChar]
  | cons c cs =>
    unfold splitOnChar
    match splitOnChar sep cs with
    | [] => simp
    | r :: rs =>
      by_cases h : c = sep <;> simp [h]

theorem splitOnChar_not_mem {sep : Char} {l : List Char} (h : sep ∉ l) :
    splitOnChar sep l = [l] := by
  induction l with
  | nil => rfl
  | cons c cs ih =>
    have hc : c ≠ sep := fun hEq => h (hEq ▸ List.mem_cons_self c cs)
    have hcs : sep ∉ cs := fun hm => h (List.mem_cons_of_mem c hm)
    unfold splitOnChar
    rw [ih hcs]
    simp [hc]

theorem string_empty_append (s : String) : "" ++ s = s := by
  cases s
  rfl

theorem caseDescriptor_eq_amended (g : String) (line : List Char) :
    caseDescriptor g line = amendedCaseDescriptor g line := by
  unfold caseDescriptor amendedCaseDescriptor
  match splitOnChar '#' line with
  | [] => rfl
  | [a] => rfl
  | [a, b] => simp [List.intercalate]
  | a :: b :: c :: rest => simp [List.length]

theorem parseGtestStep_eq_amended : parseGtestStep = amendedParseGtestStep := by
  funext acc line
  unfold parseGtestStep amendedParseGtestStep
  rw [caseDescriptor_eq_amended]

/-- C1 (amended): `parseGtestList` equals the reference algorithm of the
spec once the comment rule is restricted to the exactly-one-'#' case: split
into lines; a non-case line sets the current group to its trimmed text; a
case line yields one descriptor whose name is the current group ++ the
trimmed text before the first '#', with the trimmed text after the first
'#' as comment exactly when the line contains exactly one '#' (no comment
otherwise); descriptors appear in encounter order. -/
theorem parseGtestList_eq_amendedSpec (input : String) :
    parseGtestList input = amendedSpecParseGtestList input := by
  unfold parseGtestList amendedSpecParseGtestList
  rw [parseGtestStep_eq_amended]

/-- C1 counterexample: on the case line `"  c#a#b"` (two '#' characters)
the code produces no comment (the '#'-split has three parts, so the
`split.length == 2` branch is not taken), while the claim's reference
algorithm attaches the comment `"a#b"` because a '#' is present. -/
theorem parseGtestList_spec_counterexample :
    parseGtestList "  c#a#b" ≠ specParseGtestList "  c#a#b" := by decide

/-- C8: the parser is total by construction and degrades gracefully: empty
input yields the empty list, and a case line appearing before any group
header (here: an input that is a single case line) yields exactly one
descriptor built with the empty current group — in particular, when the
line contains no '#', its name is the whole trimmed case text with an empty
group prefix and it has no comment. -/
theorem parseGtestList_degenerate :
    parseGtestList "" = [] ∧
    ∀ s : String, '\n' ∉ s.data → startsWithTwoSpaces s.data = true →
      parseGtestList s = [caseDescriptor "" s.data] ∧
      ('#' ∉ s.data → parseGtestList s = [⟨String.mk (trimChars s.data), none⟩]) := by
  constructor
  · rfl
  · intro s hn hsw
    have hsplit : splitOnChar '\n' s.data = [s.data] := splitOnChar_not_mem hn
    have hbase : parseGtestList s = [caseDescriptor "" s.data] := by
      unfold parseGtestList
      rw [hsplit]
      simp [parseGtestStep, hsw]
    refine ⟨hbase, fun hh => ?_⟩
    have hsplit2 : splitOnChar '#' s.data = [s.data] := splitOnChar_not_mem hh
    rw [hbase]
    unfold caseDescriptor
    rw [hsplit2]
    simp [string_empty_append]

/-- C8 witness: instantiating the degenerate-input theorem at the single
case line `"  Foo"` (no preceding group header, no '#'). -/
theorem parseGtestList_degenerate_witness :
    parseGtestList "  Foo" = [⟨"Foo", none⟩] := by
  have h := (parseGtestList_degenerate.2 "  Foo" (by decide) (by decide)).2 (by decide)
  rw [h]
  decide

/-- C10: `getChildren` returns the empty list whenever the cquery returns a
number of outputs different from one, returns the empty list (instead of
propagating the error) whenever executing the test binary's listing fails,
and produces a non-empty child list only from a successful listing together
with exactly one artifact. -/
theorem getChildren_error_handling (outputs : List String) (exec : ExecResult) :
    (outputs.length ≠ 1 → getChildren outputs exec = []) ∧
    (exec = ExecResult.failed → getChildren outputs exec = []) ∧
    (getChildren outputs exec ≠ [] →
      outputs.length = 1 ∧ ∃ s, exec = ExecResult.ok s ∧ parseGtestList s ≠ []) := by
  unfold getChildren
  by_cases h : outputs.length = 1
  · cases exec with
    | ok stdout =>
      refine ⟨fun hc => absurd h hc, ?_, ?_⟩
      · intro hc
        cases hc
      · intro hne
        refine ⟨h, stdout, rfl, ?_⟩
        simpa [h] using hne
    | failed => simp [h]
  · simp [h]

/-- C10 witness: two outputs yield no children even with a listing that
would parse to a non-empty tree; one output with a failed listing yields no
children. -/
theorem getChildren_error_handling_witness :
    getChildren ["a", "b"] (ExecResult.ok "G.\n  C") = [] ∧
    getChildren ["a"] ExecResult.failed = [] :=
  ⟨(getChildren_error_handling ["a", "b"] (ExecResult.ok "G.\n  C")).1 (by decide),
   (getChildren_error_handling ["a"] ExecResult.failed).2.1 rfl⟩

/-! ### Command-layer theorems -/

/-- C2: resolving a test or coverage verb submits a task whose options are
exactly the `--test_arg=`-prefixed original options followed by the extra
flags, unprefixed (bazel_wrapper_commands.ts, lines 221-228). -/
theorem bazelTestTarget_test_arg_wrapping (O : IBazelCommandOptions) (mode : TestMode)
    (E : List String) (pick : QuickPickOutcome) :
    (bazelTestTarget (some O) mode E pick).map (fun t => t.commandOptions.options) =
      some (O.options.map (fun o => "--test_arg=" ++ o) ++ E) :=
  rfl

/-- C3: with an adapter whose options carry a number of targets different
from one, the debug-test flow throws before any effect: no task is
submitted, no query is made, no launch is started. -/
theorem bazelDebugTestTarget_target_guard (O : IBazelCommandOptions) (E : List String)
    (pick : QuickPickOutcome) (exitCode : Option Int) (outputs : List String)
    (userMappings : List (String × String)) (h : O.targets.length ≠ 1) :
    bazelDebugTestTarget (some O) E pick exitCode outputs userMappings =
      { thrownError := some "bug: invalid number of targets passed to bazelDebugTestTarget"
        submittedTask := none, queryCall := none, launch := none } := by
  unfold bazelDebugTestTarget bazelDebugTestTargetBody
  simp [h]

/-- C3 witness: a two-target adapter throws with no effects. -/
theorem bazelDebugTestTarget_target_guard_witness :
    bazelDebugTestTarget
        (some ⟨[], ["//a:b", "//c:d"], ⟨"/ws", "wf"⟩⟩) [] QuickPickOutcome.cancelled
        (some 0) [] [] =
      { thrownError := some "bug: invalid number of targets passed to bazelDebugTestTarget"
        submittedTask := none, queryCall := none, launch := none } :=
  bazelDebugTestTarget_target_guard _ _ _ _ _ _ (by decide)

/-- C4: whenever the completion event of the submitted build task reports a
non-zero exit code, the flow performs no artifact query and starts no debug
launch (lines 277-279 return before the query and the launch). -/
theorem bazelDebugTestTarget_build_failed (adapter : Option IBazelCommandOptions)
    (E : List String) (pick : QuickPickOutcome) (n : Int) (outputs : List String)
    (userMappings : List (String × String)) (h : n ≠ 0) :
    (bazelDebugTestTarget adapter E pick (some n) outputs userMappings).queryCall = none ∧
    (bazelDebugTestTarget adapter E pick (some n) outputs userMappings).launch = none := by
  have hb : ∀ O extra,
      (bazelDebugTestTargetBody O extra (some n) outputs userMappings).queryCall = none ∧
      (bazelDebugTestTargetBody O extra (some n) outputs userMappings).launch = none := by
    intro O extra
    unfold bazelDebugTestTargetBody
    by_cases hl : O.targets.length ≠ 1 <;> simp [hl, h]
  cases adapter with
  | some O => exact hb O E
  | none =>
    cases pick with
    | cancelled => exact ⟨rfl, rfl⟩
    | picked a => exact hb a []

/-- C4 witness: exit code 1 on a valid single-target adapter yields neither
a query call nor a launch. -/
theorem bazelDebugTestTarget_build_failed_witness :
    (bazelDebugTestTarget (some ⟨["--foo"], ["//a:b"], ⟨"/ws", "wf"⟩⟩) []
        QuickPickOutcome.cancelled (some 1) ["p"] []).queryCall = none ∧
    (bazelDebugTestTarget (some ⟨["--foo"], ["//a:b"], ⟨"/ws", "wf"⟩⟩) []
        QuickPickOutcome.cancelled (some 1) ["p"] []).launch = none :=
  bazelDebugTestTarget_build_failed _ _ _ 1 _ _ (by decide)

/-- C5 counterexample: the claim that the build step's options "contain
none of the adapter's command options" fails for the adapter options
`["dbg"]`: the submitted build options are `["--compilation_mode", "dbg"]`,
which contain the adapter option `"dbg"`. -/
theorem bazelDebugTestTarget_build_options_counterexample :
    "dbg" ∈ (IBazelCommandOptions.mk ["dbg"] ["//a:b"] ⟨"/ws", "wf"⟩).options ∧
    (bazelDebugTestTarget (some (IBazelCommandOptions.mk ["dbg"] ["//a:b"] ⟨"/ws", "wf"⟩))
        [] QuickPickOutcome.cancelled (some 0) ["p"] []).submittedTask.map
      (fun t => t.commandOptions.options) = some ["--compilation_mode", "dbg"] ∧
    "dbg" ∈ ["--compilation_mode", "dbg"] :=
  ⟨by decide, rfl, by decide⟩

/-- C5 (amended): the build step's options are exactly the compilation-mode
flag pair followed by the caller-supplied extra flags, computed without any
dependence on the adapter's command options (so no adapter option is
forwarded to the build, though an adapter option may textually coincide
with one of the fixed tokens); the adapter's command options appear
verbatim and in order as the args of the debug-launch configuration. -/
theorem bazelDebugTestTarget_build_and_launch (O : IBazelCommandOptions)
    (E : List String) (pick : QuickPickOutcome) (outputs : List String)
    (userMappings : List (String × String)) (h : O.targets.length = 1) :
    ((bazelDebugTestTarget (some O) E pick (some 0) outputs userMappings).submittedTask.map
      (fun t => t.commandOptions.options) = some (["--compilation_mode", "dbg"] ++ E)) ∧
    (∀ opts : List String,
      (bazelDebugTestTarget (some { O with options := opts }) E pick (some 0) outputs
          userMappings).submittedTask =
        (bazelDebugTestTarget (some O) E pick (some 0) outputs userMappings).submittedTask) ∧
    ((bazelDebugTestTarget (some O) E pick (some 0) outputs userMappings).launch.map
      (fun c => c.args) = some O.options) := by
  unfold bazelDebugTestTarget bazelDebugTestTargetBody
  simp [h, createBazelTask]

/-- C5 witness: a single-target adapter with a test-filter option and one
extra flag — the build options are the debug flags plus the extra flag, the
launch args are the test-filter option. -/
theorem bazelDebugTestTarget_build_and_launch_witness :
    ((bazelDebugTestTarget (some ⟨["--gtest_filter=F"], ["//a:b"], ⟨"/ws", "wf"⟩⟩)
        ["--config=clang-asan"] QuickPickOutcome.cancelled (some 0) ["p"] []).submittedTask.map
      (fun t => t.commandOptions.options) =
        some ["--compilation_mode", "dbg", "--config=clang-asan"]) ∧
    ((bazelDebugTestTarget (some ⟨["--gtest_filter=F"], ["//a:b"], ⟨"/ws", "wf"⟩⟩)
        ["--config=clang-asan"] QuickPickOutcome.cancelled (some 0) ["p"] []).launch.map
      (fun c => c.args) = some ["--gtest_filter=F"]) := by
  have h := bazelDebugTestTarget_build_and_launch
    ⟨["--gtest_filter=F"], ["//a:b"], ⟨"/ws", "wf"⟩⟩
    ["--config=clang-asan"] QuickPickOutcome.cancelled ["p"] [] (by decide)
  exact ⟨h.1, h.2.2⟩

/-- C6: the package-level build/test resolution submits a task built from a
fresh options bundle whose targets are exactly the incoming targets with
the suffix appended and whose options and workspace info are unchanged; the
incoming bundle is not mutated (its post-state equals itself), so resolving
twice from the same bundle yields identical results. -/
theorem packageAll_suffix_transform (O : IBazelCommandOptions) (s : String)
    (mode : TestMode) (pick : QuickPickOutcome) (hs : s = ":all" ∨ s = "/...") :
    (buildPackage s (some O) pick =
      some (createBazelTask "build" (packageAllCommandOptions s O))) ∧
    (testPackage s (some O) mode pick =
      some (createBazelTask mode.toVerb (packageAllCommandOptions s O))) ∧
    (packageAllCommandOptions s O).targets = O.targets.map (fun t => t ++ s) ∧
    (packageAllCommandOptions s O).options = O.options ∧
    (packageAllCommandOptions s O).workspaceInfo = O.workspaceInfo ∧
    packagePostState O = O ∧
    packageAllCommandOptions s (packagePostState O) = packageAllCommandOptions s O :=
  ⟨rfl, rfl, rfl, rfl, rfl, rfl, rfl⟩

/-- C6 witness: appending `":all"` to the single package target `"//pkg"`. -/
theorem packageAll_suffix_transform_witness :
    (packageAllCommandOptions ":all"
      ⟨["--foo"], ["//pkg"], ⟨"/ws", "wf"⟩⟩).targets = ["//pkg:all"] := by
  have h := packageAll_suffix_transform ⟨["--foo"], ["//pkg"], ⟨"/ws", "wf"⟩⟩ ":all"
    TestMode.test QuickPickOutcome.cancelled (Or.inl rfl)
  rw [h.2.2.1]
  decide

/-- C7 counterexample: the test/coverage path mutates the `commandOptions`
object in place (lines 222-225 reassign its `options` field), so its fields
are NOT identical before and after: with prior options `["--foo"]` and the
extra flag `"--config=clang-asan"`, the post-state differs from the input. -/
theorem bazelTestTargetOptions_mutates :
    bazelTestTargetOptions ⟨["--foo"], ["//x:y"], ⟨"/ws", "wf"⟩⟩ ["--config=clang-asan"] ≠
      ⟨["--foo"], ["//x:y"], ⟨"/ws", "wf"⟩⟩ := by decide

/-- C7 (amended): the package-level resolution paths never mutate the
incoming options bundle, but the test/coverage path mutates the passed
bundle in place: its `options` field becomes the `--test_arg=`-prefixed
originals followed by the extra flags, while `targets` and `workspaceInfo`
are left unchanged. -/
theorem commandOptions_mutation_profile (O : IBazelCommandOptions) (E : List String) :
    packagePostState O = O ∧
    (bazelTestTargetOptions O E).targets = O.targets ∧
    (bazelTestTargetOptions O E).workspaceInfo = O.workspaceInfo ∧
    (bazelTestTargetOptions O E).options =
      O.options.map (fun o => "--test_arg=" ++ o) ++ E :=
  ⟨rfl, rfl, rfl, rfl⟩

/-- C9: when a test or debug-test command is invoked from the palette
(without an adapter) carrying modifier extra flags, the re-invocation after
the user picks a target passes no extra flags: the dispatched test task's
options are only the prefixed adapter options (nothing appended), and the
dispatched debug build's options are only the compilation-mode flag pair —
independently of the original extra flags. -/
theorem palette_reinvocation_drops_flags (mode : TestMode) (E : List String)
    (a : IBazelCommandOptions) (pick : QuickPickOutcome) (exitCode : Option Int)
    (outputs : List String) (userMappings : List (String × String)) :
    (bazelTestTarget none mode E (QuickPickOutcome.picked a) =
      bazelTestTarget (some a) mode [] pick) ∧
    ((bazelTestTarget none mode E (QuickPickOutcome.picked a)).map
      (fun t => t.commandOptions.options) =
        some (a.options.map (fun o => "--test_arg=" ++ o))) ∧
    (bazelDebugTestTarget none E (QuickPickOutcome.picked a) exitCode outputs userMappings =
      bazelDebugTestTarget (some a) [] pick exitCode outputs userMappings) ∧
    (a.targets.length = 1 →
      (bazelDebugTestTarget none E (QuickPickOutcome.picked a) exitCode outputs
          userMappings).submittedTask.map (fun t => t.commandOptions.options) =
        some ["--compilation_mode", "dbg"]) := by
  refine ⟨rfl, ?_, rfl, ?_⟩
  · simp [bazelTestTarget, bazelTestTargetDispatch, bazelTestTargetOptions, createBazelTask]
  · intro h
    unfold bazelDebugTestTarget bazelDebugTestTargetBody
    by_cases he : exitCode = some 0 <;> simp [h, he, createBazelTask]

/-- C9 witness: a palette debug-test invocation carrying
`"--config=clang-asan"`, with a picked single-target adapter, dispatches a
build whose options are only the compilation-mode flag pair. -/
theorem palette_reinvocation_drops_flags_witness :
    (bazelDebugTestTarget none ["--config=clang-asan"]
        (QuickPickOutcome.picked ⟨["--gtest_filter=F"], ["//a:b"], ⟨"/ws", "wf"⟩⟩)
        (some 1) [] []).submittedTask.map (fun t => t.commandOptions.options) =
      some ["--compilation_mode", "dbg"] :=
  (palette_reinvocation_drops_flags TestMode.test ["--config=clang-asan"]
    ⟨["--gtest_filter=F"], ["//a:b"], ⟨"/ws", "wf"⟩⟩ QuickPickOutcome.cancelled
    (some 1) [] []).2.2.2 (by decide)
